import Mathlib

/-!
Shallow embedding of `src/csv_to_sql.py` (CRM-pro): a tool that converts a
CSV file of customer records into SQL INSERT statements.

Modelling conventions:
* A parsed CSV data row (the dict produced by `csv.DictReader`) is an
  association list `Rcd` from column name to cell value; a key is present
  exactly when the column appears in the file's header.  `row.get(k, d)` is
  `rget`, `row[k]` is `ritem` (total with junk default `""`; every use in the
  source is guarded by the required-fields check, so the default never fires).
* Python's `value.replace("'", "''")` with a one-character pattern is embedded
  character-wise as `escapeChars`.
* `sys.exit(1)` paths are the `RunResult.fatal` constructor; `main` writes the
  output file `import.sql` only after `csv_to_sql` returns normally, which is
  the `RunResult.ok` constructor (`mainFile` models that write, taking the
  wall-clock timestamp as an explicit argument).
* Strings printed by warnings are reproduced verbatim (`stageWarning`,
  `tempWarning`); the stream of warnings is returned alongside the SQL text.
-/

namespace CRM

/-- The single-quote character (codepoint 39). -/
def sq : Char := Char.ofNat 39

/-- A parsed CSV data row: the dict produced by `csv.DictReader`, i.e. an
association list from column name to cell value.  A key is present exactly
when the column appears in the header. -/
def Rcd : Type := List (String × String)

/-- Python `row.get(k, d)`. -/
def rget (row : Rcd) (k d : String) : String :=
  (List.lookup k row).getD d

/-- Python `row[k]` for a key guaranteed present by the required-fields
check (total with junk default `""`). -/
def ritem (row : Rcd) (k : String) : String :=
  (List.lookup k row).getD ""

/-- Character-wise embedding of Python `value.replace("'", "''")`: every
single-quote character is replaced by two single-quote characters. -/
def escapeChars : List Char → List Char
  | [] => []
  | c :: cs => if c = sq then sq :: sq :: escapeChars cs else c :: escapeChars cs

/-- Source lines 43-46: the inner `escape` helper.  `if not value: return ''`
is the empty-string test; otherwise single quotes are doubled. -/
def escape (value : String) : String :=
  if value = "" then "" else String.mk (escapeChars value.data)

/-- Whether a character sequence is a valid SQL string-literal body: a
single-quote character may occur only immediately followed by a second one
(the pair being the escape for one literal quote). -/
def okBody : List Char → Bool
  | [] => true
  | c :: cs =>
    if c = sq then
      match cs with
      | [] => false
      | c2 :: cs2 => c2 = sq && okBody cs2
    else okBody cs

/-- Source lines 63-64: the seven valid pipeline stages. -/
def valid_stages : List String :=
  ["new_lead", "initial_contact", "nurturing", "high_intent",
   "joined_group", "opened_account", "deposited"]

/-- Source line 70: the four valid temperature levels. -/
def valid_temps : List String :=
  ["hot", "warm", "neutral", "cold"]

/-- Source line 32: the required header fields. -/
def required_fields : List String := ["name", "source", "stage"]

/-- Source line 33: `all(field in reader.fieldnames for field in required_fields)`. -/
def hasRequired (fieldnames : List String) : Bool :=
  required_fields.all (fun f => fieldnames.contains f)

/-- Source line 66: the warning printed for an invalid `stage` value;
`count` is the 1-based row number. -/
def stageWarning (count : Nat) (stage : String) : String :=
  "⚠️  警告：第 " ++ toString count ++ " 行的 stage 值 '" ++ stage ++
    "' 无效，使用默认值 'new_lead'"

/-- Source line 72: the warning printed for an invalid `temperature_level`. -/
def tempWarning (count : Nat) (lvl : String) : String :=
  "⚠️  警告：第 " ++ toString count ++ " 行的 temperature_level 值 '" ++ lvl ++
    "' 无效，使用默认值 'neutral'"

/-- The fourteen per-row values, in the order the source binds them
(lines 48-60), after extraction and (for the text fields) escaping. -/
structure Slots where
  name : String
  phone : String
  wechat : String
  email : String
  source : String
  stage : String
  temp_score : String
  temp_level : String
  interests : String
  personality : String
  unique_qualities : String
  behavior_patterns : String
  investment_profile : String
deriving DecidableEq, Repr

/-- Source lines 48-60: extract each field from the row, escaping the ten
free-text fields; `stage` is taken raw, `temperature_score` and
`temperature_level` are taken raw with defaults `"50"` / `"neutral"` when the
column is absent. -/
def extractSlots (row : Rcd) : Slots where
  name := escape (ritem row "name")
  phone := escape (rget row "phone" "")
  wechat := escape (rget row "wechat" "")
  email := escape (rget row "email" "")
  source := escape (ritem row "source")
  stage := ritem row "stage"
  temp_score := rget row "temperature_score" "50"
  temp_level := rget row "temperature_level" "neutral"
  interests := escape (rget row "interests" "")
  personality := escape (rget row "personality" "")
  unique_qualities := escape (rget row "unique_qualities" "")
  behavior_patterns := escape (rget row "behavior_patterns" "")
  investment_profile := escape (rget row "investment_profile" "")

/-- Source lines 62-67: if `stage` is not among `valid_stages`, print a
warning and use `"new_lead"`. -/
def validateStage (count : Nat) (s : Slots) : Slots × List String :=
  if s.stage ∈ valid_stages then (s, [])
  else ({ s with stage := "new_lead" }, [stageWarning count s.stage])

/-- Source lines 69-73: if `temp_level` is not among `valid_temps`, print a
warning and use `"neutral"`. -/
def validateTemp (count : Nat) (s : Slots) : Slots × List String :=
  if s.temp_level ∈ valid_temps then (s, [])
  else ({ s with temp_level := "neutral" }, [tempWarning count s.temp_level])

/-- The two validations in source order (stage first, then temperature
level), collecting the warnings they print. -/
def validateSlots (count : Nat) (s : Slots) : Slots × List String :=
  ((validateTemp count (validateStage count s).1).1,
   (validateStage count s).2 ++ (validateTemp count (validateStage count s).1).2)

/-- The fixed text of the f-string on lines 75-79, up to the first
interpolation. -/
def sqlHead : String :=
  "INSERT INTO clients (\n  user_id, name, phone, wechat, email, source, stage,\n  temperature_score, temperature_level,\n  interests, personality, unique_qualities, behavior_patterns, investment_profile\n) VALUES (\n  "

/-- The part of the generated statement that precedes the
`temperature_score` interpolation (source lines 75-81). -/
def sqlBeforeScore (user_id : Int) (s : Slots) : String :=
  sqlHead ++ toString user_id ++ ", '" ++ s.name ++ "', '" ++ s.phone ++
    "', '" ++ s.wechat ++ "', '" ++ s.email ++ "', '" ++ s.source ++
    "', '" ++ s.stage ++ "',\n  "

/-- The part of the generated statement that follows the
`temperature_score` interpolation (source lines 81-83). -/
def sqlAfterScore (s : Slots) : String :=
  ", '" ++ s.temp_level ++ "',\n  '" ++ s.interests ++ "', '" ++
    s.personality ++ "', '" ++ s.unique_qualities ++ "', '" ++
    s.behavior_patterns ++ "', '" ++ s.investment_profile ++ "'\n);"

/-- Source lines 75-83: the full INSERT statement.  `temperature_score` is
interpolated raw and unquoted between the two fixed parts. -/
def mkSql (user_id : Int) (s : Slots) : String :=
  sqlBeforeScore user_id s ++ s.temp_score ++ sqlAfterScore s

/-- One iteration of the row loop (source lines 39-85) at 1-based row number
`count`: the generated statement and the warnings printed for this row. -/
def processRow (user_id : Int) (count : Nat) (row : Rcd) : String × List String :=
  ((mkSql user_id (validateSlots count (extractSlots row)).1),
   (validateSlots count (extractSlots row)).2)

/-- The whole row loop: starting from counter `count`, returns the list of
generated statements in row order, the warnings in print order, and the
final value of `count` (incremented once per row, before processing). -/
def convLoop (user_id : Int) : Nat → List Rcd → List String × List String × Nat
  | count, [] => ([], [], count)
  | count, row :: rest =>
    ((processRow user_id (count + 1) row).1 :: (convLoop user_id (count + 1) rest).1,
     (processRow user_id (count + 1) row).2 ++ (convLoop user_id (count + 1) rest).2.1,
     (convLoop user_id (count + 1) rest).2.2)

/-- A successfully parsed CSV file: the header's field names and the data
rows (each row's dict built by `csv.DictReader`). -/
structure CsvData where
  fieldnames : List String
  rows : List Rcd

/-- Outcome of `csv_to_sql`: either `sys.exit(1)` after printing a
diagnostic (`fatal`), or a normal return of the joined SQL text, the row
count, and the warnings printed along the way (`ok`). -/
inductive RunResult
  | fatal (msg : String)
  | ok (sql : String) (count : Nat) (warnings : List String)
deriving DecidableEq, Repr

/-- Source lines 17-92: `csv_to_sql(csv_file, user_id)`.  `input = none`
models a path that does not exist (line 20); otherwise the required-fields
check runs (line 33) and on success the row loop produces the statements,
joined by blank lines (line 87). -/
def csv_to_sql (csv_file : String) (input : Option CsvData) (user_id : Int) : RunResult :=
  match input with
  | none => RunResult.fatal ("❌ 错误：文件 " ++ csv_file ++ " 不存在")
  | some data =>
    if hasRequired data.fieldnames then
      RunResult.ok (String.intercalate "\n\n" (convLoop user_id 0 data.rows).1)
        (convLoop user_id 0 data.rows).2.2
        (convLoop user_id 0 data.rows).2.1
    else RunResult.fatal "❌ 错误：CSV 文件缺少必需字段"

/-- Process exit status: every `fatal` path calls `sys.exit(1)`. -/
def exitCode : RunResult → Nat
  | RunResult.fatal _ => 1
  | RunResult.ok _ _ _ => 0

/-- Whether `main` reaches the write of `import.sql` (source lines 127-134):
only after `csv_to_sql` returns normally. -/
def writesOutput : RunResult → Bool
  | RunResult.fatal _ => false
  | RunResult.ok _ _ _ => true

/-- The comment block `main` writes at the top of `import.sql` (source
lines 129-133); `t` is the formatted generation timestamp. -/
def fileHeader (csv_file : String) (user_id : Int) (count : Nat) (t : String) : String :=
  "-- CRM 客户数据导入脚本\n-- 来源文件: " ++ csv_file ++ "\n-- 用户 ID: " ++
    toString user_id ++ "\n-- 记录数量: " ++ toString count ++
    "\n-- 生成时间: " ++ t ++ "\n\n"

/-- The contents of `import.sql` written by `main` (source lines 127-134),
or `none` when `csv_to_sql` exited fatally before the write. -/
def mainFile (csv_file : String) (input : Option CsvData) (user_id : Int)
    (t : String) : Option String :=
  match csv_to_sql csv_file input user_id with
  | RunResult.fatal _ => none
  | RunResult.ok sql count _ => some (fileHeader csv_file user_id count t ++ sql)

/-- Concrete data used by witness theorems: a minimal valid file with one
well-formed row. -/
def okData : CsvData :=
  ⟨["name", "source", "stage"],
   [[("name", "Ann"), ("source", "web"), ("stage", "new_lead")]]⟩

/-- Concrete row whose `temperature_score` cell contains a single quote. -/
def scoreQuoteRow : Rcd :=
  [("name", "Ann"), ("source", "web"), ("stage", "new_lead"),
   ("temperature_score", "1'")]

/-- Concrete row with an out-of-enumeration `stage` and
`temperature_level`. -/
def invalidEnumRow : Rcd :=
  [("name", "Ann"), ("source", "web"), ("stage", "bogus"),
   ("temperature_level", "tepid")]

/-- Concrete row whose `stage` and `temperature_level` cells are present
but empty. -/
def emptyEnumRow : Rcd :=
  [("name", "Ann"), ("source", "web"), ("stage", ""),
   ("temperature_level", "")]

/-- Concrete row whose `temperature_score` cell is present but empty. -/
def emptyScoreRow : Rcd :=
  [("name", "Ann"), ("source", "web"), ("stage", "new_lead"),
   ("temperature_score", "")]

/-- Concrete row carrying a quote-bearing, non-numeric
`temperature_score`. -/
def rawScoreRow : Rcd :=
  [("name", "Ann"), ("source", "web"), ("stage", "new_lead"),
   ("temperature_score", "12'x")]

/-- The statement generated for `okData`'s single row with owner id 2. -/
def okDataSql : String := (processRow 2 1 (okData.rows.headD [])).1

/-- The validated slots keep every field except `stage` and `temp_level`,
which are coerced to their defaults exactly when invalid. -/
theorem validateSlots_fst (count : Nat) (s : Slots) :
    (validateSlots count s).1 =
      { s with stage := if s.stage ∈ valid_stages then s.stage else "new_lead",
               temp_level := if s.temp_level ∈ valid_temps then s.temp_level else "neutral" } := by
  by_cases h1 : s.stage ∈ valid_stages <;> by_cases h2 : s.temp_level ∈ valid_temps <;>
    simp [validateSlots, validateStage, validateTemp, h1, h2]

/-- The warnings produced by validation: one per invalid enumeration value,
stage first. -/
theorem validateSlots_snd (count : Nat) (s : Slots) :
    (validateSlots count s).2 =
      (if s.stage ∈ valid_stages then [] else [stageWarning count s.stage]) ++
        (if s.temp_level ∈ valid_temps then [] else [tempWarning count s.temp_level]) := by
  by_cases h1 : s.stage ∈ valid_stages <;> by_cases h2 : s.temp_level ∈ valid_temps <;>
    simp [validateSlots, validateStage, validateTemp, h1, h2]

/-- The validated stage is always in the enumeration. -/
theorem validateSlots_stage_mem (count : Nat) (s : Slots) :
    (validateSlots count s).1.stage ∈ valid_stages := by
  by_cases h : s.stage ∈ valid_stages <;> simp [validateSlots_fst, h]
  decide

/-- The validated temperature level is always in the enumeration. -/
theorem validateSlots_temp_mem (count : Nat) (s : Slots) :
    (validateSlots count s).1.temp_level ∈ valid_temps := by
  by_cases h : s.temp_level ∈ valid_temps <;> simp [validateSlots_fst, h]
  decide

/-- Doubling quotes exactly doubles the number of quote characters. -/
theorem escapeChars_count (l : List Char) :
    (escapeChars l).count sq = 2 * l.count sq := by
  induction l with
  | nil => rfl
  | cons c cs ih =>
    by_cases h : c = sq
    · simp [escapeChars, h, List.count_cons, ih]
      omega
    · simp [escapeChars, h, List.count_cons, ih]

/-- The result of doubling quotes is a valid SQL literal body. -/
theorem okBody_escapeChars (l : List Char) : okBody (escapeChars l) = true := by
  induction l with
  | nil => rfl
  | cons c cs ih =>
    by_cases h : c = sq
    · simp [escapeChars, h, okBody, ih]
    · rw [escapeChars, if_neg h, okBody.eq_def]
      simp only [if_neg h]
      exact ih

/-- The escaped text has exactly twice as many quote characters as the
original value. -/
theorem escape_count (v : String) :
    (escape v).data.count sq = 2 * v.data.count sq := by
  by_cases h : v = ""
  · subst h; rfl
  · simp only [escape, h, if_false]
    exact escapeChars_count v.data

/-- The escaped text is a valid SQL literal body. -/
theorem okBody_escape (v : String) : okBody (escape v).data = true := by
  by_cases h : v = ""
  · subst h; rfl
  · simp only [escape, h, if_false]
    exact okBody_escapeChars v.data

/-- The row loop emits exactly one statement per row. -/
theorem convLoop_length (uid : Int) (c : Nat) (rows : List Rcd) :
    (convLoop uid c rows).1.length = rows.length := by
  induction rows generalizing c with
  | nil => rfl
  | cons r rest ih => simp [convLoop, ih]

/-- The row counter ends at its start plus the number of rows. -/
theorem convLoop_count (uid : Int) (c : Nat) (rows : List Rcd) :
    (convLoop uid c rows).2.2 = c + rows.length := by
  induction rows generalizing c with
  | nil => simp [convLoop]
  | cons r rest ih => simp [convLoop, ih]; omega

/-- The `i`-th emitted statement is the one generated from the `i`-th row,
processed at 1-based row number `c + 1 + i`. -/
theorem convLoop_get (uid : Int) (c : Nat) (rows : List Rcd) (i : Nat) :
    (convLoop uid c rows).1[i]? =
      (rows[i]?).map fun r => (processRow uid (c + 1 + i) r).1 := by
  induction rows generalizing c i with
  | nil => simp [convLoop]
  | cons r rest ih =>
    cases i with
    | zero => simp [convLoop]
    | succ j =>
      simp only [convLoop, List.getElem?_cons_succ]
      rw [ih (c + 1) j, show c + 1 + 1 + j = c + 1 + (j + 1) from by omega]

/-- Every warning printed while processing the `i`-th row appears in the
loop's warning stream. -/
theorem convLoop_warn_mem (uid : Int) (c : Nat) (rows : List Rcd) (i : Nat)
    (row : Rcd) (w : String) (h : rows[i]? = some row)
    (hw : w ∈ (processRow uid (c + 1 + i) row).2) :
    w ∈ (convLoop uid c rows).2.1 := by
  induction rows generalizing c i with
  | nil => simp at h
  | cons r rest ih =>
    cases i with
    | zero =>
      simp at h
      subst h
      simp [convLoop]
      exact Or.inl hw
    | succ j =>
      simp only [List.getElem?_cons_succ] at h
      have := ih (c + 1) j h (by rw [show c + 1 + 1 + j = c + 1 + (j + 1) from by omega]; exact hw)
      simp [convLoop]
      exact Or.inr this

/-- The stage warning text contains the 1-based row number and the
offending value. -/
theorem stageWarning_parts (n : Nat) (v : String) :
    (toString n).data <:+: (stageWarning n v).data ∧
      v.data <:+: (stageWarning n v).data := by
  constructor
  · exact ⟨"⚠️  警告：第 ".data,
      (" 行的 stage 值 '" ++ v ++ "' 无效，使用默认值 'new_lead'").data,
      by simp [stageWarning, String.data_append]⟩
  · exact ⟨("⚠️  警告：第 " ++ toString n ++ " 行的 stage 值 '").data,
      "' 无效，使用默认值 'new_lead'".data,
      by simp [stageWarning, String.data_append]⟩

/-- The temperature-level warning text contains the 1-based row number and
the offending value. -/
theorem tempWarning_parts (n : Nat) (v : String) :
    (toString n).data <:+: (tempWarning n v).data ∧
      v.data <:+: (tempWarning n v).data := by
  constructor
  · exact ⟨"⚠️  警告：第 ".data,
      (" 行的 temperature_level 值 '" ++ v ++ "' 无效，使用默认值 'neutral'").data,
      by simp [tempWarning, String.data_append]⟩
  · exact ⟨("⚠️  警告：第 " ++ toString n ++ " 行的 temperature_level 值 '").data,
      "' 无效，使用默认值 'neutral'".data,
      by simp [tempWarning, String.data_append]⟩

/-- C1: for every input file whose header contains the required fields,
`csv_to_sql` returns normally, the number of INSERT statements it produces
equals the number of data rows read (header excluded), the returned count
equals that number, and the `i`-th statement of the output (the joined list
preserves list order) is the one generated from the `i`-th input row. -/
theorem csv_to_sql_count_and_order (csv_file : String) (data : CsvData) (uid : Int)
    (h : hasRequired data.fieldnames = true) :
    csv_to_sql csv_file (some data) uid =
      RunResult.ok (String.intercalate "\n\n" (convLoop uid 0 data.rows).1)
        data.rows.length (convLoop uid 0 data.rows).2.1 ∧
    (convLoop uid 0 data.rows).1.length = data.rows.length ∧
    ∀ i : Nat, (convLoop uid 0 data.rows).1[i]? =
      (data.rows[i]?).map fun r => (processRow uid (i + 1) r).1 := by
  refine ⟨?_, convLoop_length uid 0 data.rows, ?_⟩
  · simp [csv_to_sql, h, convLoop_count]
  · intro i
    have hg := convLoop_get uid 0 data.rows i
    rw [show 0 + 1 + i = i + 1 from by omega] at hg
    exact hg

/-- Witness for C1 at a concrete one-row file. -/
theorem csv_to_sql_count_and_order_witness :
    hasRequired okData.fieldnames = true ∧
    csv_to_sql "clients.csv" (some okData) 2 =
      RunResult.ok (String.intercalate "\n\n" (convLoop 2 0 okData.rows).1)
        okData.rows.length (convLoop 2 0 okData.rows).2.1 ∧
    (convLoop 2 0 okData.rows).1[0]? =
      (okData.rows[0]?).map fun r => (processRow 2 (0 + 1) r).1 :=
  ⟨by decide,
   (csv_to_sql_count_and_order "clients.csv" okData 2 (by decide)).1,
   (csv_to_sql_count_and_order "clients.csv" okData 2 (by decide)).2.2 0⟩

set_option maxRecDepth 8000 in
/-- C2 counterexample: the claim quantifies over every field position, but
`temperature_score` is interpolated verbatim.  In `scoreQuoteRow` its value
`1'` carries one single quote which is not doubled in the generated
statement: the statement ends up with an odd number of single-quote
characters, while a statement in which every embedded quote were doubled
would have an even count (paired delimiters plus doubled quotes), so it is
not syntactically valid as SQL string literals. -/
theorem quote_every_position_counterexample :
    (validateSlots 1 (extractSlots scoreQuoteRow)).1.temp_score = "1'" ∧
    "1'".data.count sq = 1 ∧
    ((processRow 2 1 scoreQuoteRow).1.data.count sq) % 2 = 1 := by decide

/-- C2 amended: every FREE-TEXT field value (name, phone, wechat, email,
source, interests, personality, unique_qualities, behavior_patterns,
investment_profile) is escaped by doubling embedded single quotes, empty or
absent values escaping to the empty string, and the escaped text is a valid
SQL literal body; the stage and temperature_level positions always hold
enumeration constants, which contain no quote; `temperature_score` is the
exception: it is interpolated verbatim with no escaping. -/
theorem quote_doubling_amended (count : Nat) (row : Rcd) :
    ((validateSlots count (extractSlots row)).1.name = escape (ritem row "name") ∧
     (validateSlots count (extractSlots row)).1.phone = escape (rget row "phone" "") ∧
     (validateSlots count (extractSlots row)).1.wechat = escape (rget row "wechat" "") ∧
     (validateSlots count (extractSlots row)).1.email = escape (rget row "email" "") ∧
     (validateSlots count (extractSlots row)).1.source = escape (ritem row "source") ∧
     (validateSlots count (extractSlots row)).1.interests = escape (rget row "interests" "") ∧
     (validateSlots count (extractSlots row)).1.personality = escape (rget row "personality" "") ∧
     (validateSlots count (extractSlots row)).1.unique_qualities = escape (rget row "unique_qualities" "") ∧
     (validateSlots count (extractSlots row)).1.behavior_patterns = escape (rget row "behavior_patterns" "") ∧
     (validateSlots count (extractSlots row)).1.investment_profile = escape (rget row "investment_profile" "")) ∧
    (∀ v : String, (escape v).data.count sq = 2 * v.data.count sq ∧
      okBody (escape v).data = true) ∧
    escape "" = "" ∧
    ((validateSlots count (extractSlots row)).1.stage ∈ valid_stages ∧
     (validateSlots count (extractSlots row)).1.temp_level ∈ valid_temps) ∧
    (∀ w ∈ valid_stages, w.data.count sq = 0) ∧
    (∀ w ∈ valid_temps, w.data.count sq = 0) ∧
    (validateSlots count (extractSlots row)).1.temp_score = rget row "temperature_score" "50" := by
  refine ⟨⟨?_, ?_, ?_, ?_, ?_, ?_, ?_, ?_, ?_, ?_⟩,
    fun v => ⟨escape_count v, okBody_escape v⟩, rfl,
    ⟨validateSlots_stage_mem count (extractSlots row),
     validateSlots_temp_mem count (extractSlots row)⟩,
    by decide, by decide, ?_⟩
  all_goals simp [validateSlots_fst, extractSlots]

/-- Witness for the amended C2: the free-text slots of `scoreQuoteRow` are
the escaped raw values, escaping doubles the quote of O'x into a valid
literal body, and the score slot is the raw cell value. -/
theorem quote_doubling_amended_witness :
    (validateSlots 1 (extractSlots scoreQuoteRow)).1.name = escape (ritem scoreQuoteRow "name") ∧
    (escape "O'x").data.count sq = 2 * "O'x".data.count sq ∧
    okBody (escape "O'x").data = true ∧
    (validateSlots 1 (extractSlots scoreQuoteRow)).1.temp_score =
      rget scoreQuoteRow "temperature_score" "50" :=
  have h := quote_doubling_amended 1 scoreQuoteRow
  ⟨h.1.1, (h.2.1 "O'x").1, (h.2.1 "O'x").2, h.2.2.2.2.2.2⟩

/-- C3: for a row whose raw `stage` is outside the seven-item enumeration,
the validated stage slot is `new_lead` and the loop's warning stream
contains the stage warning for that row, whose text contains the 1-based
row index and the offending value; likewise `temperature_level` with
default `neutral`; and the row is still emitted (the `i`-th output
statement exists and is generated from this row). -/
theorem invalid_enum_warn_and_emit (uid : Int) (rows : List Rcd) (i : Nat) (row : Rcd)
    (hrow : rows[i]? = some row) :
    ((ritem row "stage") ∉ valid_stages →
      (validateSlots (i + 1) (extractSlots row)).1.stage = "new_lead" ∧
      stageWarning (i + 1) (ritem row "stage") ∈ (convLoop uid 0 rows).2.1 ∧
      (toString (i + 1)).data <:+: (stageWarning (i + 1) (ritem row "stage")).data ∧
      (ritem row "stage").data <:+: (stageWarning (i + 1) (ritem row "stage")).data) ∧
    ((rget row "temperature_level" "neutral") ∉ valid_temps →
      (validateSlots (i + 1) (extractSlots row)).1.temp_level = "neutral" ∧
      tempWarning (i + 1) (rget row "temperature_level" "neutral") ∈ (convLoop uid 0 rows).2.1 ∧
      (toString (i + 1)).data <:+: (tempWarning (i + 1) (rget row "temperature_level" "neutral")).data ∧
      (rget row "temperature_level" "neutral").data <:+: (tempWarning (i + 1) (rget row "temperature_level" "neutral")).data) ∧
    (convLoop uid 0 rows).1[i]? = some ((processRow uid (i + 1) row).1) := by
  have hwmem : ∀ w, w ∈ (processRow uid (i + 1) row).2 → w ∈ (convLoop uid 0 rows).2.1 := by
    intro w hw
    exact convLoop_warn_mem uid 0 rows i row w hrow
      (by rw [show 0 + 1 + i = i + 1 from by omega]; exact hw)
  refine ⟨fun hs => ⟨?_, ?_, (stageWarning_parts (i + 1) (ritem row "stage")).1,
      (stageWarning_parts (i + 1) (ritem row "stage")).2⟩,
    fun ht => ⟨?_, ?_, (tempWarning_parts (i + 1) (rget row "temperature_level" "neutral")).1,
      (tempWarning_parts (i + 1) (rget row "temperature_level" "neutral")).2⟩, ?_⟩
  · simp [validateSlots_fst, extractSlots, hs]
  · exact hwmem _ (by simp [processRow, validateSlots_snd, extractSlots, hs])
  · simp [validateSlots_fst, extractSlots, ht]
  · exact hwmem _ (by simp [processRow, validateSlots_snd, extractSlots, ht])
  · have hg := convLoop_get uid 0 rows i
    rw [hrow, show 0 + 1 + i = i + 1 from by omega] at hg
    simpa using hg

/-- Witness for C3 at a concrete row with invalid stage and temperature
level. -/
theorem invalid_enum_warn_and_emit_witness :
    (validateSlots 1 (extractSlots invalidEnumRow)).1.stage = "new_lead" ∧
    stageWarning 1 (ritem invalidEnumRow "stage") ∈ (convLoop 2 0 [invalidEnumRow]).2.1 ∧
    (validateSlots 1 (extractSlots invalidEnumRow)).1.temp_level = "neutral" ∧
    tempWarning 1 (rget invalidEnumRow "temperature_level" "neutral") ∈ (convLoop 2 0 [invalidEnumRow]).2.1 ∧
    (convLoop 2 0 [invalidEnumRow]).1[0]? = some ((processRow 2 1 invalidEnumRow).1) :=
  have h := invalid_enum_warn_and_emit 2 [invalidEnumRow] 0 invalidEnumRow rfl
  ⟨(h.1 (by decide)).1, (h.1 (by decide)).2.1,
   (h.2.1 (by decide)).1, (h.2.1 (by decide)).2.1, h.2.2⟩

/-- C4: when the header omits an optional column (the row dict has no such
key), the corresponding slot of the generated statement is the empty
string — which `mkSql` wraps in single quotes, giving the literal `''` —
except `temperature_score`, whose slot is the unquoted `50`, and
`temperature_level`, whose slot is `neutral`; the generated statement is
exactly `mkSql` applied to these slots. -/
theorem missing_optional_defaults (uid : Int) (count : Nat) (row : Rcd) :
    (List.lookup "phone" row = none →
      (validateSlots count (extractSlots row)).1.phone = "") ∧
    (List.lookup "wechat" row = none →
      (validateSlots count (extractSlots row)).1.wechat = "") ∧
    (List.lookup "email" row = none →
      (validateSlots count (extractSlots row)).1.email = "") ∧
    (List.lookup "interests" row = none →
      (validateSlots count (extractSlots row)).1.interests = "") ∧
    (List.lookup "personality" row = none →
      (validateSlots count (extractSlots row)).1.personality = "") ∧
    (List.lookup "unique_qualities" row = none →
      (validateSlots count (extractSlots row)).1.unique_qualities = "") ∧
    (List.lookup "behavior_patterns" row = none →
      (validateSlots count (extractSlots row)).1.behavior_patterns = "") ∧
    (List.lookup "investment_profile" row = none →
      (validateSlots count (extractSlots row)).1.investment_profile = "") ∧
    (List.lookup "temperature_score" row = none →
      (validateSlots count (extractSlots row)).1.temp_score = "50") ∧
    (List.lookup "temperature_level" row = none →
      (validateSlots count (extractSlots row)).1.temp_level = "neutral") ∧
    (processRow uid count row).1 = mkSql uid (validateSlots count (extractSlots row)).1 := by
  refine ⟨?_, ?_, ?_, ?_, ?_, ?_, ?_, ?_, ?_, ?_, rfl⟩
  all_goals intro h
  all_goals simp [validateSlots_fst, extractSlots, rget, h, escape]

/-- Witness for C4 at a concrete row with only the required columns. -/
theorem missing_optional_defaults_witness :
    (validateSlots 1 (extractSlots (okData.rows.headD []))).1.phone = "" ∧
    (validateSlots 1 (extractSlots (okData.rows.headD []))).1.temp_score = "50" ∧
    (validateSlots 1 (extractSlots (okData.rows.headD []))).1.temp_level = "neutral" :=
  have h := missing_optional_defaults 2 1 (okData.rows.headD [])
  ⟨h.1 (by decide), h.2.2.2.2.2.2.2.2.1 (by decide), h.2.2.2.2.2.2.2.2.2.1 (by decide)⟩

/-- C5: the `temperature_score` value carried by a row is inserted into the
generated statement verbatim: the validated slot equals the raw cell value
(no validation, escaping, or coercion), and the statement is the fixed
surrounding text with exactly that string, unquoted, in the numeric
position. -/
theorem temp_score_verbatim (uid : Int) (count : Nat) (row : Rcd) (v : String)
    (h : List.lookup "temperature_score" row = some v) :
    (validateSlots count (extractSlots row)).1.temp_score = v ∧
    (processRow uid count row).1 =
      sqlBeforeScore uid (validateSlots count (extractSlots row)).1 ++ v ++
        sqlAfterScore (validateSlots count (extractSlots row)).1 := by
  have hts : (validateSlots count (extractSlots row)).1.temp_score = v := by
    simp [validateSlots_fst, extractSlots, rget, h]
  exact ⟨hts, by simp only [processRow, mkSql, hts]⟩

/-- Witness for C5 at a row whose score cell is the non-numeric,
quote-bearing string 12'x. -/
theorem temp_score_verbatim_witness :
    (validateSlots 1 (extractSlots rawScoreRow)).1.temp_score = "12'x" ∧
    (processRow 2 1 rawScoreRow).1 =
      sqlBeforeScore 2 (validateSlots 1 (extractSlots rawScoreRow)).1 ++ "12'x" ++
        sqlAfterScore (validateSlots 1 (extractSlots rawScoreRow)).1 :=
  temp_score_verbatim 2 1 rawScoreRow "12'x" (by decide)

/-- C6: a nonexistent input path, or a header lacking one of the required
fields name/source/stage, makes `csv_to_sql` terminate fatally — exit
status 1 after printing a diagnostic starting with the error marker — and
`main` never reaches the write of `import.sql`. -/
theorem fatal_no_output (csv_file : String) (input : Option CsvData) (uid : Int)
    (h : input = none ∨
      ∃ data, input = some data ∧ hasRequired data.fieldnames = false) :
    ∃ msg, csv_to_sql csv_file input uid = RunResult.fatal msg ∧
      "❌ 错误".data <+: msg.data ∧
      exitCode (csv_to_sql csv_file input uid) = 1 ∧
      writesOutput (csv_to_sql csv_file input uid) = false ∧
      (∀ t : String, mainFile csv_file input uid t = none) := by
  rcases h with h | ⟨data, hin, hreq⟩
  · subst h
    refine ⟨"❌ 错误：文件 " ++ csv_file ++ " 不存在", rfl, ?_, rfl, rfl, fun t => rfl⟩
    refine ⟨("：文件 " ++ csv_file ++ " 不存在").data, ?_⟩
    have h1 : "❌ 错误：文件 " = "❌ 错误" ++ "：文件 " := by decide
    rw [h1]
    simp [String.data_append, List.append_assoc]
  · subst hin
    have hcs : csv_to_sql csv_file (some data) uid =
        RunResult.fatal "❌ 错误：CSV 文件缺少必需字段" := by
      simp [csv_to_sql, hreq]
    refine ⟨"❌ 错误：CSV 文件缺少必需字段", hcs,
      ⟨"：CSV 文件缺少必需字段".data, by decide⟩, ?_, ?_, ?_⟩
    · rw [hcs]
      rfl
    · rw [hcs]
      rfl
    · intro t
      simp [mainFile, hcs]

/-- Witness for C6 at a nonexistent path. -/
theorem fatal_no_output_witness :
    exitCode (csv_to_sql "missing.csv" none 2) = 1 ∧
    writesOutput (csv_to_sql "missing.csv" none 2) = false ∧
    mainFile "missing.csv" none 2 "2026-10-12 10:00:00" = none := by
  obtain ⟨msg, hm, hp, he, hw, hmf⟩ := fatal_no_output "missing.csv" none 2 (Or.inl rfl)
  exact ⟨he, hw, hmf "2026-10-12 10:00:00"⟩

set_option maxRecDepth 8000 in
/-- C7: end-to-end — for the header name,source,stage, the single data row
O'Brien,referral,new_lead and owner id 3, exactly one INSERT statement is
produced, with user_id 3, name 'O''Brien', source 'referral', stage
'new_lead', temperature_score 50 unquoted, temperature_level 'neutral',
and the empty-string literal in every other text position. -/
theorem end_to_end_obrien :
    csv_to_sql "clients.csv"
      (some ⟨["name", "source", "stage"],
        [[("name", "O'Brien"), ("source", "referral"), ("stage", "new_lead")]]⟩) 3 =
      RunResult.ok "INSERT INTO clients (\n  user_id, name, phone, wechat, email, source, stage,\n  temperature_score, temperature_level,\n  interests, personality, unique_qualities, behavior_patterns, investment_profile\n) VALUES (\n  3, 'O''Brien', '', '', '', 'referral', 'new_lead',\n  50, 'neutral',\n  '', '', '', '', ''\n);" 1 [] := by decide

/-- C8: invariant — for every possible row, the validated stage slot is one
of the seven enumeration values and the validated temperature-level slot
one of the four; in particular a present-but-empty stage or
temperature_level cell is invalid and coerced to new_lead / neutral with
the corresponding warning. -/
theorem enum_positions_invariant (count : Nat) (row : Rcd) :
    (validateSlots count (extractSlots row)).1.stage ∈ valid_stages ∧
    (validateSlots count (extractSlots row)).1.temp_level ∈ valid_temps ∧
    (List.lookup "stage" row = some "" →
      (validateSlots count (extractSlots row)).1.stage = "new_lead" ∧
      stageWarning count "" ∈ (validateSlots count (extractSlots row)).2) ∧
    (List.lookup "temperature_level" row = some "" →
      (validateSlots count (extractSlots row)).1.temp_level = "neutral" ∧
      tempWarning count "" ∈ (validateSlots count (extractSlots row)).2) := by
  refine ⟨validateSlots_stage_mem count (extractSlots row),
    validateSlots_temp_mem count (extractSlots row), ?_, ?_⟩
  · intro h
    have hs : (extractSlots row).stage = "" := by simp [extractSlots, ritem, h]
    have hnot : "" ∉ valid_stages := by decide
    constructor
    · simp [validateSlots_fst, hs, hnot]
    · simp [validateSlots_snd, hs, hnot]
  · intro h
    have hs : (extractSlots row).temp_level = "" := by simp [extractSlots, rget, h]
    have hnot : "" ∉ valid_temps := by decide
    constructor
    · simp [validateSlots_fst, hs, hnot]
    · simp [validateSlots_snd, hs, hnot]

/-- Witness for C8 at a row with present-but-empty stage and
temperature_level cells. -/
theorem enum_positions_invariant_witness :
    (validateSlots 1 (extractSlots emptyEnumRow)).1.stage = "new_lead" ∧
    stageWarning 1 "" ∈ (validateSlots 1 (extractSlots emptyEnumRow)).2 ∧
    (validateSlots 1 (extractSlots emptyEnumRow)).1.temp_level = "neutral" ∧
    tempWarning 1 "" ∈ (validateSlots 1 (extractSlots emptyEnumRow)).2 :=
  have h := enum_positions_invariant 1 emptyEnumRow
  ⟨(h.2.2.1 (by decide)).1, (h.2.2.1 (by decide)).2,
   (h.2.2.2 (by decide)).1, (h.2.2.2 (by decide)).2⟩

/-- C9: when the `temperature_score` column is present but a row's cell is
the empty string, the default 50 is not applied: the slot is the empty
string — not "50" — and the generated statement is the fixed surrounding
text with nothing in the numeric position. -/
theorem present_empty_score_no_default (uid : Int) (count : Nat) (row : Rcd)
    (h : List.lookup "temperature_score" row = some "") :
    (validateSlots count (extractSlots row)).1.temp_score = "" ∧
    (validateSlots count (extractSlots row)).1.temp_score ≠ "50" ∧
    (processRow uid count row).1 =
      sqlBeforeScore uid (validateSlots count (extractSlots row)).1 ++
        sqlAfterScore (validateSlots count (extractSlots row)).1 := by
  have hts : (validateSlots count (extractSlots row)).1.temp_score = "" := by
    simp [validateSlots_fst, extractSlots, rget, h]
  refine ⟨hts, by simp [hts], ?_⟩
  simp only [processRow, mkSql, hts]
  simp

/-- Witness for C9 at a row with a present-but-empty score cell. -/
theorem present_empty_score_no_default_witness :
    (validateSlots 1 (extractSlots emptyScoreRow)).1.temp_score = "" ∧
    (validateSlots 1 (extractSlots emptyScoreRow)).1.temp_score ≠ "50" ∧
    (processRow 2 1 emptyScoreRow).1 =
      sqlBeforeScore 2 (validateSlots 1 (extractSlots emptyScoreRow)).1 ++
        sqlAfterScore (validateSlots 1 (extractSlots emptyScoreRow)).1 :=
  present_empty_score_no_default 2 1 emptyScoreRow (by decide)

/-- C10: the transformation is deterministic — `csv_to_sql` is a pure
function of the parsed rows and the user id and takes no timestamp; across
two runs whose only difference is the generation timestamp the caller
stamps into the file header, the run outcome kind is the same and the very
same SQL text and row count are written after the respective headers (the
timestamp occurs only in the caller's header). -/
theorem deterministic_output (csv_file : String) (input : Option CsvData) (uid : Int)
    (t1 t2 : String) :
    ((mainFile csv_file input uid t1).isSome ↔ (mainFile csv_file input uid t2).isSome) ∧
    (∀ sql count ws, csv_to_sql csv_file input uid = RunResult.ok sql count ws →
      mainFile csv_file input uid t1 = some (fileHeader csv_file uid count t1 ++ sql) ∧
      mainFile csv_file input uid t2 = some (fileHeader csv_file uid count t2 ++ sql)) := by
  constructor
  · cases hres : csv_to_sql csv_file input uid <;> simp [mainFile, hres]
  · intro sql count ws hres
    constructor <;> simp [mainFile, hres]

set_option maxRecDepth 8000 in
/-- Witness for C10: two runs differing only in the timestamp write the
same statement after their headers. -/
theorem deterministic_output_witness :
    mainFile "clients.csv" (some okData) 2 "2026-10-12 10:00:00" =
      some (fileHeader "clients.csv" 2 1 "2026-10-12 10:00:00" ++ okDataSql) ∧
    mainFile "clients.csv" (some okData) 2 "2026-10-12 11:00:00" =
      some (fileHeader "clients.csv" 2 1 "2026-10-12 11:00:00" ++ okDataSql) :=
  (deterministic_output "clients.csv" (some okData) 2
      "2026-10-12 10:00:00" "2026-10-12 11:00:00").2
    okDataSql 1 [] (by decide)

end CRM
